import Mathlib

/-!
Shallow embedding of `python_libs/messages.py` (Colors, Styles, Severity,
Messages).  Python dictionaries become association lists with explicit
get/set/del operations mirroring Python dict semantics; `print` calls are
collected as a list of output lines; a raised exception becomes
`Except.error` carrying the exception message; shared mutable class state
(`Severity.levels`, `Messages.defaults`, the singleton flags) is threaded
explicitly as a state record.
-/

/-- Python dict read `m[k]` without the KeyError: returns the value stored
under the first matching key, or `none` when the key is absent
(`k in m` is `(dictGet m k).isSome`). -/
def dictGet {α : Type} : List (String × α) → String → Option α
  | [], _ => none
  | (k, v) :: rest, key => if k = key then some v else dictGet rest key

/-- Python dict membership test `key in m`. -/
def dictHas {α : Type} (m : List (String × α)) (key : String) : Bool :=
  (dictGet m key).isSome

/-- Python dict assignment `m[key] = v`: replaces the value in place when the
key is present, otherwise appends the new binding (insertion order). -/
def dictSet {α : Type} : List (String × α) → String → α → List (String × α)
  | [], key, v => [(key, v)]
  | (k, w) :: rest, key, v =>
    if k = key then (key, v) :: rest else (k, w) :: dictSet rest key v

/-- Python dict deletion `del m[key]` (the key is assumed present; the
KeyError on an absent key is raised by the caller, see
`Severity.remove_level`). -/
def dictDel {α : Type} : List (String × α) → String → List (String × α)
  | [], _ => []
  | (k, v) :: rest, key =>
    if k = key then dictDel rest key else (k, v) :: dictDel rest key

/-- The fixed color table `Colors._COLORS` of `messages.py`, in source
order.  `\x1b` is the ESC character written `\033` in the Python source. -/
def Colors.COLORS : List (String × String) := [
  ("NONE", ""),
  ("RESET", "\x1b[0m"),
  ("BLACK", "\x1b[30m"),
  ("RED", "\x1b[31m"),
  ("GREEN", "\x1b[32m"),
  ("YELLOW", "\x1b[33m"),
  ("BLUE", "\x1b[34m"),
  ("MAGENTA", "\x1b[35m"),
  ("CYAN", "\x1b[36m"),
  ("WHITE", "\x1b[37m"),
  ("BRIGHT_BLACK", "\x1b[90m"),
  ("BRIGHT_RED", "\x1b[91m"),
  ("BRIGHT_GREEN", "\x1b[92m"),
  ("BRIGHT_YELLOW", "\x1b[93m"),
  ("BRIGHT_BLUE", "\x1b[94m"),
  ("BRIGHT_MAGENTA", "\x1b[95m"),
  ("BRIGHT_CYAN", "\x1b[96m"),
  ("BRIGHT_WHITE", "\x1b[97m")]

/-- `Colors.getCode`: `if name not in cls.COLORS: return None` then
`return cls.COLORS[name]`. -/
def Colors.getCode (name : String) : Option String :=
  if dictHas Colors.COLORS name = false then none
  else dictGet Colors.COLORS name

/-- The `Styles` enumeration of `messages.py`. -/
inductive Styles where
  | PLAIN
  | COLORS
  | ICONS
deriving DecidableEq, Repr

/-- A value of the `Severity.levels` dict: the `icon` / `label` / `color`
attributes of one severity level. -/
structure LevelDescriptor where
  icon : String
  label : String
  color : String
deriving DecidableEq, Repr

/-- The `Messages.defaults` class attribute: default severity level
(a string or Python `None`) and default style. -/
structure Defaults where
  severity_level : Option String
  style : Styles
deriving DecidableEq, Repr

/-- The shared mutable class state the library operates on:
`Severity.levels` (read through `self.severity` by the renderer) and
`Messages.defaults` (written by `Severity.set_default_level`). -/
structure LibState where
  levels : List (String × LevelDescriptor)
  defaults : Defaults
deriving DecidableEq, Repr

/-- Initial value of the `Severity.levels` class attribute. -/
def Severity.levels : List (String × LevelDescriptor) := [
  ("COOL", LevelDescriptor.mk "🚀" "[INFO] " "GREEN"),
  ("INFO", LevelDescriptor.mk "✅" "[INFO] " "NONE"),
  ("WARN", LevelDescriptor.mk "⚠️" "[WARNING] " "YELLOW"),
  ("FATAL", LevelDescriptor.mk "❌" "[FATAL] " "RED")]

/-- Initial value of the `Messages.defaults` class attribute. -/
def Messages.defaults : Defaults := Defaults.mk (some "INFO") Styles.ICONS

/-- The library state as it stands right after import: the built-in levels
and the initial defaults. -/
def initState : LibState := LibState.mk Severity.levels Messages.defaults

/-- `Severity.add_level`: `self.levels[id] = {"icon": icon, "label": label,
"color": color}`. -/
def Severity.add_level (st : LibState) (id icon label color : String) :
    LibState :=
  LibState.mk (dictSet st.levels id (LevelDescriptor.mk icon label color))
    st.defaults

/-- `Severity.remove_level`: `del self.levels[id]`.  Python `del` raises
`KeyError` when the key is absent; otherwise the binding is removed. -/
def Severity.remove_level (st : LibState) (id : String) :
    Except String LibState :=
  if dictGet st.levels id = none then Except.error ("KeyError: " ++ id)
  else Except.ok (LibState.mk (dictDel st.levels id) st.defaults)

/-- `Severity.set_default_level`: on `None` clear the default; on an
unregistered id raise `Severity level does not exist: {id}` (the state is
unchanged, the raise precedes the assignment); otherwise store the id in
`Messages.defaults["severity_level"]`.  The second component is the raised
exception message, `none` when the call returns normally. -/
def Severity.set_default_level (st : LibState) (id : Option String) :
    LibState × Option String :=
  match id with
  | none =>
    (LibState.mk st.levels (Defaults.mk none st.defaults.style), none)
  | some i =>
    if dictHas st.levels i = false then
      (st, some ("Severity level does not exist: " ++ i))
    else
      (LibState.mk st.levels (Defaults.mk (some i) st.defaults.style), none)

/-- `Severity.get_default_level`: `return Messages.defaults["severity_level"]`. -/
def Severity.get_default_level (st : LibState) : Option String :=
  st.defaults.severity_level

/-- Python `str()` of an optional string, as interpolated by the f-string in
`show_message`: `None` prints as `"None"`. -/
def pyStr : Option String → String
  | none => "None"
  | some s => s

/-- Resolution of the `severity_level` parameter (`show_message` lines
`if severity_level is None: severity_level = self.defaults["severity_level"]`). -/
def Messages.resolve_severity (st : LibState) (sl : Option String) :
    Option String :=
  match sl with
  | none => st.defaults.severity_level
  | some s => some s

/-- Resolution of the `style` parameter (`if style is None:
style = self.defaults["style"]`). -/
def Messages.resolve_style (st : LibState) (sty : Option Styles) : Styles :=
  match sty with
  | none => st.defaults.style
  | some s => s

/-- The Python membership test `severity_level in self.severity.levels`
after resolution: the resolved value may be `None`, which is never a key of
the levels dict (its keys are strings). -/
def severityInLevels (levels : List (String × LevelDescriptor)) :
    Option String → Bool
  | none => false
  | some k => dictHas levels k

/-- `Messages.print_message`: the three-way branch on `style`.  Output is
the list of printed lines.  In the COLORS branch
`color_start + message + color_end` raises `TypeError` when
`Colors.getCode` returned `None` (an unknown color name); looking up a
severity level absent from the dict would raise `KeyError` (unreachable
from `show_message`, which checks membership first). -/
def Messages.print_message (st : LibState) (message severity_level : String)
    (style : Styles) : Except String (List String) :=
  if style = Styles.PLAIN then
    Except.ok [message]
  else if style = Styles.COLORS then
    match dictGet st.levels severity_level with
    | none => Except.error ("KeyError: " ++ severity_level)
    | some d =>
      match Colors.getCode d.color, Colors.getCode "RESET" with
      | some color_start, some color_end =>
        Except.ok [color_start ++ message ++ color_end]
      | _, _ =>
        Except.error
          "TypeError: unsupported operand type(s) for +: NoneType and str"
  else if style = Styles.ICONS then
    match dictGet st.levels severity_level with
    | none => Except.error ("KeyError: " ++ severity_level)
    | some d => Except.ok [d.icon ++ " " ++ message]
  else
    Except.ok []

/-- `Messages.show_message`: resolve the omitted arguments from the
defaults; when the resolved severity is not a key of the levels dict print
the undeclared-severity warning plus the bare message and return `False`;
otherwise delegate to `print_message` and return `True`.  The result pairs
the (unchanged) state with the printed lines and the boolean, or with the
exception propagating out of `print_message`. -/
def Messages.show_message (st : LibState) (message : String)
    (severity_level : Option String) (style : Option Styles) :
    LibState × Except String (List String × Bool) :=
  let resolved := Messages.resolve_severity st severity_level
  let sty := Messages.resolve_style st style
  match resolved with
  | some lvl =>
    if dictHas st.levels lvl = false then
      (st, Except.ok
        (["⚠️ Undeclared severity level: " ++ lvl, message], false))
    else
      match Messages.print_message st message lvl sty with
      | Except.ok lines => (st, Except.ok (lines, true))
      | Except.error e => (st, Except.error e)
  | none =>
    (st, Except.ok
      (["⚠️ Undeclared severity level: None", message], false))

/-- Shared class-level singleton flags `Severity._instance_created` and
`Messages._instance_created`. -/
structure SingletonFlags where
  severity_created : Bool
  messages_created : Bool
deriving DecidableEq, Repr

/-- Both flags start out `False`. -/
def initFlags : SingletonFlags := SingletonFlags.mk false false

/-- Constructing `Severity(...)` with `nargs` positional arguments.
`type.__call__` passes the arguments to `Severity.__new__`, whose signature
accepts only `cls`, so a nonzero argument count raises `TypeError` before
the flag is read; otherwise `__new__` raises `Severity is a singleton` when
the flag is already set, else sets the flag and returns the instance
(`Severity` defines no `__init__`, so `object.__init__` accepts the empty
argument list). -/
def Severity.construct (nargs : Nat) (fl : SingletonFlags) :
    SingletonFlags × Except String Unit :=
  if nargs ≠ 0 then
    (fl, Except.error "TypeError: Severity.__new__ takes 1 positional argument")
  else if fl.severity_created then
    (fl, Except.error "Severity is a singleton")
  else
    (SingletonFlags.mk true fl.messages_created, Except.ok ())

/-- Constructing `Messages(...)` with `nargs` positional arguments.
`Messages.__new__` likewise accepts only `cls`, so any argument raises
`TypeError` before the flag is read; with no arguments `__new__` either
raises the singleton error or sets the flag, after which
`Messages.__init__(self, severity)` is called with no `severity` argument
and raises `TypeError` — so no attempt ever returns an instance. -/
def Messages.construct (nargs : Nat) (fl : SingletonFlags) :
    SingletonFlags × Except String Unit :=
  if nargs ≠ 0 then
    (fl, Except.error "TypeError: Messages.__new__ takes 1 positional argument")
  else if fl.messages_created then
    (fl, Except.error "Severity is a singleton")
  else
    (SingletonFlags.mk fl.severity_created true,
      Except.error "TypeError: Messages.__init__ missing 1 required positional argument: severity")

/-- One constructor call in a process: which class, and with how many
positional arguments. -/
inductive Attempt where
  | severity (nargs : Nat)
  | messages (nargs : Nat)

/-- Run one construction attempt against the current flags. -/
def runAttempt (fl : SingletonFlags) : Attempt → SingletonFlags × Except String Unit
  | Attempt.severity n => Severity.construct n fl
  | Attempt.messages n => Messages.construct n fl

/-- Whether a construction attempt returned normally. -/
def isOkResult : Except String Unit → Bool
  | Except.ok _ => true
  | Except.error _ => false

/-- Number of `Severity(...)` calls in the attempt sequence that return an
instance (do not raise). -/
def severitySuccesses : SingletonFlags → List Attempt → Nat
  | _, [] => 0
  | fl, a :: rest =>
    (match a, (runAttempt fl a).2 with
      | Attempt.severity _, Except.ok _ => 1
      | _, _ => 0) + severitySuccesses (runAttempt fl a).1 rest

/-- Number of `Messages(...)` calls in the attempt sequence that return an
instance (do not raise). -/
def messagesSuccesses : SingletonFlags → List Attempt → Nat
  | _, [] => 0
  | fl, a :: rest =>
    (match a, (runAttempt fl a).2 with
      | Attempt.messages _, Except.ok _ => 1
      | _, _ => 0) + messagesSuccesses (runAttempt fl a).1 rest

/-! Helper lemmas. -/

/-- Deleting a key removes it: a lookup of the deleted key fails. -/
lemma dictGet_dictDel_self {α : Type} (m : List (String × α)) (k : String) :
    dictGet (dictDel m k) k = none := by
  induction m with
  | nil => rfl
  | cons p rest ih =>
    obtain ⟨s, v⟩ := p
    by_cases h : s = k
    · simp [dictDel, h, ih]
    · simp [dictDel, dictGet, h, ih]

/-- Deleting a key leaves every other key's binding unchanged. -/
lemma dictGet_dictDel_other {α : Type} (m : List (String × α)) (k j : String)
    (hj : j ≠ k) : dictGet (dictDel m k) j = dictGet m j := by
  induction m with
  | nil => rfl
  | cons p rest ih =>
    obtain ⟨s, v⟩ := p
    by_cases h : s = k
    · subst h
      simp [dictDel, dictGet, ih, Ne.symm hj]
    · simp [dictDel, dictGet, h, ih]

/-- The built-in level table has exactly the four keys COOL, INFO, WARN,
FATAL. -/
lemma initLevels_key (s : String) (h : dictHas Severity.levels s = true) :
    s = "COOL" ∨ s = "INFO" ∨ s = "WARN" ∨ s = "FATAL" := by
  by_cases h1 : "COOL" = s
  · exact Or.inl h1.symm
  by_cases h2 : "INFO" = s
  · exact Or.inr (Or.inl h2.symm)
  by_cases h3 : "WARN" = s
  · exact Or.inr (Or.inr (Or.inl h3.symm))
  by_cases h4 : "FATAL" = s
  · exact Or.inr (Or.inr (Or.inr h4.symm))
  exfalso
  simp [dictHas, dictGet, Severity.levels, h1, h2, h3, h4] at h

/-- Once the `Severity` singleton flag is set, no later attempt in a
sequence constructs another instance. -/
lemma severitySuccesses_created (atts : List Attempt) : ∀ fl : SingletonFlags,
    fl.severity_created = true → severitySuccesses fl atts = 0 := by
  induction atts with
  | nil => intro fl _; rfl
  | cons a rest ih =>
    intro fl hfl
    cases a with
    | severity n =>
      by_cases hn : n = 0
      · subst hn
        simp [severitySuccesses, runAttempt, Severity.construct, hfl, ih fl hfl]
      · simp [severitySuccesses, runAttempt, Severity.construct, hn, ih fl hfl]
    | messages n =>
      by_cases hn : n = 0
      · subst hn
        cases hm : fl.messages_created with
        | true => simp [severitySuccesses, runAttempt, Messages.construct, hm, ih fl hfl]
        | false =>
          simp [severitySuccesses, runAttempt, Messages.construct, hm]
          exact ih (SingletonFlags.mk fl.severity_created true) hfl
      · simp [severitySuccesses, runAttempt, Messages.construct, hn, ih fl hfl]

/-- Any sequence of construction attempts yields at most one `Severity`
instance. -/
lemma severitySuccesses_le_one (atts : List Attempt) : ∀ fl : SingletonFlags,
    severitySuccesses fl atts ≤ 1 := by
  induction atts with
  | nil => intro fl; simp [severitySuccesses]
  | cons a rest ih =>
    intro fl
    cases a with
    | severity n =>
      by_cases hn : n = 0
      · subst hn
        cases hfl : fl.severity_created with
        | true => simp [severitySuccesses, runAttempt, Severity.construct, hfl]; exact ih fl
        | false =>
          simp [severitySuccesses, runAttempt, Severity.construct, hfl]
          exact severitySuccesses_created rest (SingletonFlags.mk true fl.messages_created) rfl
      · simp [severitySuccesses, runAttempt, Severity.construct, hn]; exact ih fl
    | messages n =>
      by_cases hn : n = 0
      · subst hn
        cases hm : fl.messages_created with
        | true => simp [severitySuccesses, runAttempt, Messages.construct, hm]; exact ih fl
        | false =>
          simp [severitySuccesses, runAttempt, Messages.construct, hm]
          exact ih (SingletonFlags.mk fl.severity_created true)
      · simp [severitySuccesses, runAttempt, Messages.construct, hn]; exact ih fl

/-- No sequence of construction attempts ever yields a `Messages` instance:
every `Messages(...)` call raises, in `__new__` or in `__init__`. -/
lemma messagesSuccesses_zero (atts : List Attempt) : ∀ fl : SingletonFlags,
    messagesSuccesses fl atts = 0 := by
  induction atts with
  | nil => intro fl; rfl
  | cons a rest ih =>
    intro fl
    cases a with
    | severity n =>
      by_cases hn : n = 0
      · subst hn
        cases hfl : fl.severity_created with
        | true => simp [messagesSuccesses, runAttempt, Severity.construct, hfl, ih]
        | false => simp [messagesSuccesses, runAttempt, Severity.construct, hfl, ih]
      · simp [messagesSuccesses, runAttempt, Severity.construct, hn, ih]
    | messages n =>
      by_cases hn : n = 0
      · subst hn
        cases hm : fl.messages_created with
        | true => simp [messagesSuccesses, runAttempt, Messages.construct, hm, ih]
        | false => simp [messagesSuccesses, runAttempt, Messages.construct, hm, ih]
      · simp [messagesSuccesses, runAttempt, Messages.construct, hn, ih]

/-! Claim theorems. -/

/-- Claim C1 (code evaluation at the failing input): a registered severity
level whose descriptor color is absent from the Color Table does NOT render
as the bare message plus RESET under the COLORS style.  `Colors.getCode`
returns `None` for the unknown name, and `print_message` then evaluates
`None + message + ...`, which raises `TypeError` instead of printing the
claimed single line `Hello\x1b[0m`. -/
theorem C1_unknown_color_raises :
    Colors.getCode "PURPLE" = none
    ∧ (Messages.show_message
        (Severity.add_level initState "HINT" "💡" "[HINT] " "PURPLE")
        "Hello" (some "HINT") (some Styles.COLORS)).2
      = Except.error "TypeError: unsupported operand type(s) for +: NoneType and str"
    ∧ (Messages.show_message
        (Severity.add_level initState "HINT" "💡" "[HINT] " "PURPLE")
        "Hello" (some "HINT") (some Styles.COLORS)).2
      ≠ Except.ok (["Hello" ++ "\x1b[0m"], true) :=
  ⟨rfl, rfl, fun hc => Except.noConfusion hc⟩

/-- Claim C2: whenever the resolved severity identifier is not a key of the
levels registry, `show_message` emits exactly the two lines
`⚠️ Undeclared severity level: <id>` and the bare message, returns `False`,
and this holds for every message, explicit or defaulted severity, and
style. -/
theorem C2_undeclared_severity (st : LibState) (msg : String)
    (sl : Option String) (sty : Option Styles)
    (h : severityInLevels st.levels (Messages.resolve_severity st sl) = false) :
    Messages.show_message st msg sl sty
      = (st, Except.ok
          (["⚠️ Undeclared severity level: "
              ++ pyStr (Messages.resolve_severity st sl), msg], false)) := by
  cases hres : Messages.resolve_severity st sl with
  | none => simp [Messages.show_message, hres, pyStr]
  | some lvl =>
    rw [hres] at h
    simp only [severityInLevels] at h
    simp [Messages.show_message, hres, h, pyStr]

/-- Claim C2 witness: `showMessage("Hello", "UNKNOWN", ICONS)` returns
`False` with exactly the two claimed lines. -/
theorem C2_undeclared_severity_witness :
    severityInLevels initState.levels
        (Messages.resolve_severity initState (some "UNKNOWN")) = false
    ∧ Messages.show_message initState "Hello" (some "UNKNOWN") (some Styles.ICONS)
      = (initState, Except.ok
          (["⚠️ Undeclared severity level: "
              ++ pyStr (Messages.resolve_severity initState (some "UNKNOWN")),
            "Hello"], false)) :=
  ⟨rfl, C2_undeclared_severity initState "Hello" (some "UNKNOWN")
    (some Styles.ICONS) rfl⟩

/-- Claim C3: for every message, every severity identifier registered in the
library's built-in level table and each of the three styles, `show_message`
returns `True` and prints exactly one line; under PLAIN that line is the
message itself, and under ICONS it is the descriptor's icon, one space, and
the message. -/
theorem C3_registered_styles (msg s : String) (sty : Styles)
    (h : dictHas Severity.levels s = true) :
    ∃ line : String,
      Messages.show_message initState msg (some s) (some sty)
        = (initState, Except.ok ([line], true))
      ∧ (sty = Styles.PLAIN → line = msg)
      ∧ (sty = Styles.ICONS →
          ∃ d, dictGet Severity.levels s = some d ∧ line = d.icon ++ " " ++ msg) := by
  rcases initLevels_key s h with hs | hs | hs | hs <;> subst hs <;> cases sty
  · exact ⟨msg, rfl, fun _ => rfl, fun hc => Styles.noConfusion hc⟩
  · exact ⟨"\x1b[32m" ++ msg ++ "\x1b[0m", rfl, fun hc => Styles.noConfusion hc,
      fun hc => Styles.noConfusion hc⟩
  · exact ⟨"🚀" ++ " " ++ msg, rfl, fun hc => Styles.noConfusion hc,
      fun _ => ⟨LevelDescriptor.mk "🚀" "[INFO] " "GREEN", rfl, rfl⟩⟩
  · exact ⟨msg, rfl, fun _ => rfl, fun hc => Styles.noConfusion hc⟩
  · exact ⟨"" ++ msg ++ "\x1b[0m", rfl, fun hc => Styles.noConfusion hc,
      fun hc => Styles.noConfusion hc⟩
  · exact ⟨"✅" ++ " " ++ msg, rfl, fun hc => Styles.noConfusion hc,
      fun _ => ⟨LevelDescriptor.mk "✅" "[INFO] " "NONE", rfl, rfl⟩⟩
  · exact ⟨msg, rfl, fun _ => rfl, fun hc => Styles.noConfusion hc⟩
  · exact ⟨"\x1b[33m" ++ msg ++ "\x1b[0m", rfl, fun hc => Styles.noConfusion hc,
      fun hc => Styles.noConfusion hc⟩
  · exact ⟨"⚠️" ++ " " ++ msg, rfl, fun hc => Styles.noConfusion hc,
      fun _ => ⟨LevelDescriptor.mk "⚠️" "[WARNING] " "YELLOW", rfl, rfl⟩⟩
  · exact ⟨msg, rfl, fun _ => rfl, fun hc => Styles.noConfusion hc⟩
  · exact ⟨"\x1b[31m" ++ msg ++ "\x1b[0m", rfl, fun hc => Styles.noConfusion hc,
      fun hc => Styles.noConfusion hc⟩
  · exact ⟨"❌" ++ " " ++ msg, rfl, fun hc => Styles.noConfusion hc,
      fun _ => ⟨LevelDescriptor.mk "❌" "[FATAL] " "RED", rfl, rfl⟩⟩

/-- Claim C3 witness: `showMessage("Hello", "WARN", ICONS)` returns `True`
with the single line `⚠️ Hello`. -/
theorem C3_registered_styles_witness :
    dictHas Severity.levels "WARN" = true
    ∧ ∃ line : String,
        Messages.show_message initState "Hello" (some "WARN") (some Styles.ICONS)
          = (initState, Except.ok ([line], true))
        ∧ (Styles.ICONS = Styles.PLAIN → line = "Hello")
        ∧ (Styles.ICONS = Styles.ICONS →
            ∃ d, dictGet Severity.levels "WARN" = some d
              ∧ line = d.icon ++ " " ++ "Hello") :=
  ⟨rfl, C3_registered_styles "Hello" "WARN" Styles.ICONS rfl⟩

/-- Claim C4 counterexample: rendering `Hello` at severity WARN with the
COLORS style yields `\x1b[33mHello\x1b[0m` — the table maps YELLOW to
`\x1b[33m` — and that differs from the claimed `\x1b[93mHello\x1b[0m`
(which is BRIGHT_YELLOW's code), so the claimed output equality is false. -/
theorem C4_claimed_output_false :
    (Messages.show_message initState "Hello" (some "WARN") (some Styles.COLORS)).2
      = Except.ok (["\x1b[33mHello\x1b[0m"], true)
    ∧ "\x1b[33mHello\x1b[0m" ≠ "\x1b[93mHello\x1b[0m"
    ∧ (Messages.show_message initState "Hello" (some "WARN") (some Styles.COLORS)).2
      ≠ Except.ok (["\x1b[93mHello\x1b[0m"], true) := by
  refine ⟨rfl, by decide, ?_⟩
  intro hc
  have h1 : (Except.ok ((["\x1b[33mHello\x1b[0m"] : List String), true)
        : Except String (List String × Bool))
      = Except.ok ((["\x1b[93mHello\x1b[0m"] : List String), true) := hc
  injection h1 with h2
  rw [Prod.mk.injEq, List.cons.injEq] at h2
  exact absurd h2.1.1 (by decide)

/-- Claim C4 amended: rendering `Hello` at severity WARN (descriptor color
YELLOW) with the COLORS style produces exactly the one line
`\x1b[33mHello\x1b[0m` and returns `True`. -/
theorem C4_warn_colors_output :
    Messages.show_message initState "Hello" (some "WARN") (some Styles.COLORS)
      = (initState, Except.ok (["\x1b[33mHello\x1b[0m"], true)) := rfl

/-- Claim C5: `set_default_level` on an unregistered id raises the
`Severity level does not exist` error and leaves the state — in particular
the process-wide default severity — unchanged, and `set_default_level(None)`
clears the default severity to unset. -/
theorem C5_set_default_level (st : LibState) (i : String) :
    (dictHas st.levels i = false →
      Severity.set_default_level st (some i)
        = (st, some ("Severity level does not exist: " ++ i)))
    ∧ Severity.set_default_level st none
        = (LibState.mk st.levels (Defaults.mk none st.defaults.style), none) := by
  constructor
  · intro h
    simp [Severity.set_default_level, h]
  · rfl

/-- Claim C5 witness: at the initial state, `set_default_level("NOPE")`
raises and keeps the state, and `set_default_level(None)` clears the
default severity. -/
theorem C5_set_default_level_witness :
    dictHas initState.levels "NOPE" = false
    ∧ Severity.set_default_level initState (some "NOPE")
      = (initState, some ("Severity level does not exist: " ++ "NOPE"))
    ∧ Severity.set_default_level initState none
      = (LibState.mk initState.levels (Defaults.mk none initState.defaults.style),
          none) :=
  ⟨rfl, (C5_set_default_level initState "NOPE").1 rfl,
    (C5_set_default_level initState "NOPE").2⟩

/-- Claim C6: in any state where WARN is registered, after
`set_default_level("WARN")` a `show_message` call that omits the severity
behaves exactly like the same call with explicit severity `"WARN"`, for
every message and every (explicit or omitted) style. -/
theorem C6_default_warn_equiv (st : LibState) (msg : String)
    (sty : Option Styles) (h : dictHas st.levels "WARN" = true) :
    Messages.show_message ((Severity.set_default_level st (some "WARN")).1)
        msg none sty
      = Messages.show_message ((Severity.set_default_level st (some "WARN")).1)
          msg (some "WARN") sty := by
  have hst : (Severity.set_default_level st (some "WARN")).1
      = LibState.mk st.levels (Defaults.mk (some "WARN") st.defaults.style) := by
    simp [Severity.set_default_level, h]
  rw [hst]
  rfl

/-- Claim C6 witness: the equivalence at the initial state with message
`x` and the default style. -/
theorem C6_default_warn_equiv_witness :
    dictHas initState.levels "WARN" = true
    ∧ Messages.show_message ((Severity.set_default_level initState (some "WARN")).1)
        "x" none none
      = Messages.show_message ((Severity.set_default_level initState (some "WARN")).1)
          "x" (some "WARN") none :=
  ⟨rfl, C6_default_warn_equiv initState "x" none rfl⟩

/-- Claim C7: `show_message` never mutates the registry's level table or the
process-wide defaults — the state component of its result equals the input
state in every case, including the undeclared-severity degraded path and
the `TypeError` path. -/
theorem C7_show_message_frame (st : LibState) (msg : String)
    (sl : Option String) (sty : Option Styles) :
    ((Messages.show_message st msg sl sty).1.levels = st.levels)
    ∧ ((Messages.show_message st msg sl sty).1.defaults = st.defaults) := by
  cases hres : Messages.resolve_severity st sl with
  | none => simp [Messages.show_message, hres]
  | some lvl =>
    by_cases hmem : dictHas st.levels lvl = false
    · simp [Messages.show_message, hres, hmem]
    · cases hp : Messages.print_message st msg lvl (Messages.resolve_style st sty) with
      | ok lines => simp [Messages.show_message, hres, hmem, hp]
      | error e => simp [Messages.show_message, hres, hmem, hp]

/-- Claim C8: `Colors.getCode` is a total pure function: for a name present
in the color table it returns that name's escape sequence (`some`), for an
absent name it returns the explicit not-found result `none`, and two calls
with the same name return the same value (the table is a constant, so there
is no side effect to observe). -/
theorem C8_getCode_total (name : String) :
    Colors.getCode "YELLOW" = some "\x1b[33m"
    ∧ Colors.getCode "SALMON" = none
    ∧ Colors.getCode name = Colors.getCode name
    ∧ (dictHas Colors.COLORS name = true →
        ∃ c, Colors.getCode name = some c ∧ dictGet Colors.COLORS name = some c)
    ∧ (dictHas Colors.COLORS name = false → Colors.getCode name = none) := by
  refine ⟨rfl, rfl, rfl, ?_, ?_⟩
  · intro h
    obtain ⟨c, hc⟩ := Option.isSome_iff_exists.mp (by simpa [dictHas] using h)
    exact ⟨c, by simp [Colors.getCode, dictHas, hc], hc⟩
  · intro h
    simp [Colors.getCode, h]

/-- Claim C8 witness: the known name `YELLOW` yields its escape sequence and
the unknown name `SALMON` yields `none`. -/
theorem C8_getCode_total_witness :
    (dictHas Colors.COLORS "YELLOW" = true
      ∧ ∃ c, Colors.getCode "YELLOW" = some c
          ∧ dictGet Colors.COLORS "YELLOW" = some c)
    ∧ (dictHas Colors.COLORS "SALMON" = false ∧ Colors.getCode "SALMON" = none) :=
  ⟨⟨rfl, (C8_getCode_total "YELLOW").2.2.2.1 rfl⟩,
    ⟨rfl, (C8_getCode_total "SALMON").2.2.2.2 rfl⟩⟩

/-- Claim C9: `remove_level` on a registered id succeeds and deletes exactly
that descriptor (the id no longer resolves, every other id's binding and
the defaults are untouched); on an unregistered id it raises `KeyError`
rather than silently succeeding. -/
theorem C9_remove_level (st : LibState) (i : String) :
    (dictHas st.levels i = true →
      ∃ st', Severity.remove_level st i = Except.ok st'
        ∧ dictGet st'.levels i = none
        ∧ (∀ j, j ≠ i → dictGet st'.levels j = dictGet st.levels j)
        ∧ st'.defaults = st.defaults)
    ∧ (dictHas st.levels i = false →
      Severity.remove_level st i = Except.error ("KeyError: " ++ i)) := by
  constructor
  · intro h
    have hg : dictGet st.levels i ≠ none := by
      intro hnone
      simp [dictHas, hnone] at h
    refine ⟨LibState.mk (dictDel st.levels i) st.defaults, ?_, ?_, ?_, rfl⟩
    · simp [Severity.remove_level, hg]
    · exact dictGet_dictDel_self st.levels i
    · intro j hj
      exact dictGet_dictDel_other st.levels i j hj
  · intro h
    have hg : dictGet st.levels i = none := by
      cases hcase : dictGet st.levels i with
      | none => rfl
      | some v => simp [dictHas, hcase] at h
    simp [Severity.remove_level, hg]

/-- Claim C9 witness: removing the registered level `WARN` succeeds and
unregisters it; removing the unregistered `NOPE` raises `KeyError`. -/
theorem C9_remove_level_witness :
    (dictHas initState.levels "WARN" = true
      ∧ ∃ st', Severity.remove_level initState "WARN" = Except.ok st'
          ∧ dictGet st'.levels "WARN" = none)
    ∧ (dictHas initState.levels "NOPE" = false
      ∧ Severity.remove_level initState "NOPE"
          = Except.error ("KeyError: " ++ "NOPE")) := by
  constructor
  · refine ⟨rfl, ?_⟩
    obtain ⟨st', h1, h2, _, _⟩ := (C9_remove_level initState "WARN").1 rfl
    exact ⟨st', h1, h2⟩
  · exact ⟨rfl, (C9_remove_level initState "NOPE").2 rfl⟩

/-- Claim C10: starting from the fresh singleton flags, any sequence of
`Severity(...)` and `Messages(...)` construction attempts, with any
argument counts and in any order, yields at most one instance of each
class; moreover once the `Severity` flag is set every further
`Severity(...)` call raises, and every `Messages(...)` call raises
unconditionally (in `__new__` for a wrong argument count or a repeated
construction, otherwise in `__init__`). -/
theorem C10_singleton_construction :
    (∀ atts : List Attempt,
      severitySuccesses initFlags atts ≤ 1 ∧ messagesSuccesses initFlags atts ≤ 1)
    ∧ (∀ (n : Nat) (b : Bool),
        isOkResult (Severity.construct n (SingletonFlags.mk true b)).2 = false)
    ∧ (∀ (n : Nat) (fl : SingletonFlags),
        isOkResult (Messages.construct n fl).2 = false) := by
  refine ⟨fun atts => ⟨severitySuccesses_le_one atts initFlags, ?_⟩, ?_, ?_⟩
  · rw [messagesSuccesses_zero atts initFlags]
    exact Nat.zero_le 1
  · intro n b
    by_cases hn : n = 0
    · subst hn
      simp [Severity.construct, isOkResult]
    · simp [Severity.construct, hn, isOkResult]
  · intro n fl
    by_cases hn : n = 0
    · subst hn
      cases hm : fl.messages_created with
      | true => simp [Messages.construct, hm, isOkResult]
      | false => simp [Messages.construct, hm, isOkResult]
    · simp [Messages.construct, hn, isOkResult]
